import Mathlib

/-!
Verification development for the Azure App Configuration provider client
manager (`azure/appconfiguration/provider/_client_manager.py`).

The Python module is shallowly embedded below.  Pure computations become
Lean functions; the network transport (`AzureAppConfigurationClient`) and
the DNS discovery collaborator are out of scope per the design document
and are modelled as an explicit environment (`Env`) respectively as an
explicit input.  Side effects that matter to the statements (which
collaborator calls a method performs, and which dictionary object a write
lands on) are made explicit: functions return an event trace of the calls
they make, and the post-call value of a caller-owned dictionary is an
explicit component of the result.  Machine numbers are modelled exactly
(Python integers are unbounded; `time.time()` and the backoff arithmetic
are carried in `ℚ`).
-/

/-- A configuration setting as obtained from the store.  Only the fields the
embedded module touches are carried: `key`, `label`, `etag`, `value`, the
feature-flag type tag (the `isinstance` check in `load_configuration_settings`,
whose branch is a no-op `pass`), and for feature-flag settings the name of each
filter (`filter.get("name")`, which is `none` when the filter dict has no
`name` entry). -/
structure ConfigurationSetting where
  key : String
  label : String
  etag : Option String
  value : String
  isFeatureFlag : Bool
  filters : List (Option String)
deriving DecidableEq, Repr

/-- A selector, i.e. a `(key_filter, label_filter)` pair (`SettingSelector`
from `_models.py`; only these two fields are read by the embedded module). -/
structure SettingSelector where
  key_filter : String
  label_filter : String
deriving DecidableEq, Repr

/-- One entry of a sentinel map: a watched `(key, label)` pair together with
its last observed etag (`None` when not yet observed). -/
abbrev SentinelEntry := (String × String) × Option String

/-- A Python dict from `(key, label)` to optional etag, modelled as an
insertion-ordered association list with unique keys (as a Python dict). -/
abbrev SentinelMap := List SentinelEntry

/-- Membership test `(k in d)` on a sentinel map. -/
def dictContains (m : SentinelMap) (k : String × String) : Bool :=
  m.any (fun e => e.1 == k)

/-- Python dict assignment `d[k] = v`: if the key is present its value is
updated in place (insertion order kept), otherwise the entry is appended. -/
def dictSet (m : SentinelMap) (k : String × String) (v : Option String) : SentinelMap :=
  if m.any (fun e => e.1 == k) then
    m.map (fun e => if e.1 == k then (k, v) else e)
  else m ++ [(k, v)]

/-- The value of a feature flag after `json.loads`.  The spec (section 1)
treats feature-flag JSON parsing as an external collaborator, so the parsed
document is modelled as the raw JSON text it was parsed from. -/
structure FeatureFlagJson where
  raw : String
deriving DecidableEq, Repr

/-- Modelled from the spec: `json.loads` on a feature flag value; JSON schema
parsing is out of scope (spec section 1), so the parse is the identity on the
raw document. -/
def json_loads (s : String) : FeatureFlagJson := ⟨s⟩

/-- The `filters_used` tally built by `load_feature_flags`.  In Python it is a
dict whose keys are only ever set to `True`; a key absent from the dict is
modelled as `false`. -/
structure FiltersUsed where
  percentage : Bool
  time_window : Bool
  targeting : Bool
  custom : Bool
deriving DecidableEq, Repr

/-- The empty tally `{}`. -/
def emptyFiltersUsed : FiltersUsed := ⟨false, false, false, false⟩

/-- The transport and constant environment of one wrapper.

`get key label etag` is the conditional fetch
`self._client.get_configuration_setting(..., match_condition=MatchConditions.IfModified)`:
`.ok (some s)` is a 200 with a new value, `.ok none` is the not-modified case
(the SDK client returns `None`), and `.error status` is a raised
`HttpResponseError` with that status code.  `list` is
`self._client.list_configuration_settings(key_filter, label_filter)`.
The request `headers` only flow through to the transport, so they are not
modelled.  The three filter-name sets come from `_constants.py`, which is not
part of the sources; they are modelled from the spec ("fixed name-sets for the
first three" filter categories) as abstract lists carried by the environment. -/
structure Env where
  get : String → String → Option String → Except Nat (Option ConfigurationSetting)
  list : String → String → List ConfigurationSetting
  percentageNames : List String
  timeWindowNames : List String
  targetingNames : List String

/-- Modelled from the spec: the `FEATURE_FLAG_PREFIX` constant from
`_constants.py` (not under the sources); the spec only calls it "the
feature-flag namespace prefix", so it is an arbitrary fixed string here. -/
def featureFlagNamespace : String := ".appconfig.featureflag/"

/-- Trace events: the collaborator calls the embedded methods perform. -/
inductive Event
  | checkSetting (key label : String) (etag : Option String)
  | loadConfig
  | loadFlags
  | discover (endpoint : String)
  | closeClient (endpoint : String)
deriving DecidableEq, Repr

/-- Embedding of `_ConfigurationClientWrapper._check_configuration_setting`.
A 200 with a body returns `(True, updated_sentinel)`; a not-modified response
(the client returns `None`) falls through to `(False, None)`; a 404 returns
`(True, None)` when an etag had been supplied and `(False, None)` otherwise;
any other `HttpResponseError` is re-raised. -/
def check_configuration_setting (env : Env) (key label : String) (etag : Option String) :
    Except Nat (Bool × Option ConfigurationSetting) :=
  match env.get key label etag with
  | .ok (some updated_sentinel) => .ok (true, some updated_sentinel)
  | .ok none => .ok (false, none)
  | .error status =>
    if status = 404 then
      if etag.isSome then .ok (true, none) else .ok (false, none)
    else .error status

/-- Embedding of `_ConfigurationClientWrapper.load_configuration_settings`.

Line 148 of the source binds `sentinel_keys = kwargs.pop("sentinel_keys",
refresh_on)`; no caller in the module passes a `sentinel_keys` keyword, so
`sentinel_keys` is the very `refresh_on` object the caller handed in, and the
write `sentinel_keys[(config.key, config.label)] = config.etag` mutates the
caller's dict.  The returned map is therefore simultaneously the returned
`sentinel_keys` and the post-call value of the caller's `refresh_on` object.
The membership test `(config.key, config.label) in refresh_on` is against that
same evolving object, i.e. against the accumulator.  The
`isinstance(config, FeatureFlagConfigurationSetting)` branch is `pass` and has
no effect, so every listed setting is appended. -/
def load_configuration_settings (env : Env) (selects : List SettingSelector)
    (refresh_on : SentinelMap) : List ConfigurationSetting × SentinelMap :=
  selects.foldl
    (fun acc sel =>
      (env.list sel.key_filter sel.label_filter).foldl
        (fun acc2 config =>
          (acc2.1 ++ [config],
           if dictContains acc2.2 (config.key, config.label) then
             dictSet acc2.2 (config.key, config.label) config.etag
           else acc2.2))
        acc)
    ([], refresh_on)

/-- One step of the filter classification in `load_feature_flags`: the
filter's name is looked up in the percentage, time-window and targeting name
sets in that order, anything else (including a filter with no `name` entry,
since `None in <list of str>` is false) marks the custom category. -/
def classifyFilter (pnames twnames tnames : List String) (fu : FiltersUsed)
    (name : Option String) : FiltersUsed :=
  match name with
  | some n =>
    if n ∈ pnames then { fu with percentage := true }
    else if n ∈ twnames then { fu with time_window := true }
    else if n ∈ tnames then { fu with targeting := true }
    else { fu with custom := true }
  | none => { fu with custom := true }

/-- Embedding of `_ConfigurationClientWrapper.load_feature_flags`: lists the
feature-flag namespace for each selector, parses every value, records each
flag's `(key, label) → etag` into a fresh sentinel map when refresh is
enabled, and classifies every filter name into the tally. -/
def load_feature_flags (env : Env) (feature_flag_selectors : List SettingSelector)
    (feature_flag_refresh_enabled : Bool) :
    List FeatureFlagJson × SentinelMap × FiltersUsed :=
  feature_flag_selectors.foldl
    (fun acc sel =>
      (env.list (featureFlagNamespace ++ sel.key_filter) sel.label_filter).foldl
        (fun acc2 feature_flag =>
          (acc2.1 ++ [json_loads feature_flag.value],
           (if feature_flag_refresh_enabled then
              dictSet acc2.2.1 (feature_flag.key, feature_flag.label) feature_flag.etag
            else acc2.2.1),
           (if feature_flag.filters.isEmpty then acc2.2.2
            else feature_flag.filters.foldl
              (classifyFilter env.percentageNames env.timeWindowNames env.targetingNames)
              acc2.2.2)))
        acc)
    ([], [], emptyFiltersUsed)

/-- The write-back step of the check loop of `refresh_configuration_settings`
(source lines 219-220): when the check returned an updated setting (`if
updated_sentinel is not None`), the visited entry's etag in
`updated_sentinel_keys` is replaced by the fresh one; otherwise the map is
left alone. -/
def sentinelWriteBack (m : SentinelMap) (key label : String)
    (updated_sentinel : Option ConfigurationSetting) : SentinelMap :=
  match updated_sentinel with
  | some s => dictSet m (key, label) s.etag
  | none => m

/-- The check loop of `refresh_configuration_settings` (lines 211-220): it
iterates the entries of the copy `updated_sentinel_keys = dict(refresh_on)`,
calls `_check_configuration_setting` on each (the trace records the call),
accumulates `need_refresh`, and writes a freshly returned etag back into the
copy.  An unrecognised transport error propagates out of the loop.  Each
iteration only writes the entry currently being visited, so iterating the
entry list of the copy as it was when the loop started is faithful to the
Python iterator. -/
def refreshCfgLoop (env : Env) (entries : List SentinelEntry) (m : SentinelMap) :
    Except Nat (Bool × SentinelMap) × List Event :=
  match entries with
  | [] => (.ok (false, m), [])
  | ((key, label), etag) :: rest =>
    match check_configuration_setting env key label etag with
    | .error c => (.error c, [Event.checkSetting key label etag])
    | .ok (changed, updated_sentinel) =>
      match refreshCfgLoop env rest (sentinelWriteBack m key label updated_sentinel) with
      | (.error c, evs) => (.error c, Event.checkSetting key label etag :: evs)
      | (.ok (need_rest, m_end), evs) =>
        (.ok (changed || need_rest, m_end), Event.checkSetting key label etag :: evs)

/-- Embedding of `_ConfigurationClientWrapper.refresh_configuration_settings`.

The result is a triple: the function's return value (or the propagated
error status), the post-call value of the caller's `refresh_on` dict object,
and the trace of collaborator calls.  The check loop works on the copy
`dict(refresh_on)`, so it never touches the caller's object; when
`need_refresh` is set the single `load_configuration_settings(selects,
refresh_on)` call receives the caller's object itself and (through the
aliasing described on `load_configuration_settings`) rewrites it to the
returned sentinel map. -/
def refresh_configuration_settings (env : Env) (selects : List SettingSelector)
    (refresh_on : SentinelMap) :
    Except Nat (Bool × SentinelMap × List ConfigurationSetting) × SentinelMap × List Event :=
  match refreshCfgLoop env refresh_on refresh_on with
  | (.error c, evs) => (.error c, refresh_on, evs)
  | (.ok (need_refresh, _updated_sentinel_keys), evs) =>
    if need_refresh then
      let cfg := load_configuration_settings env selects refresh_on
      (.ok (true, cfg.2, cfg.1), cfg.2, evs ++ [Event.loadConfig])
    else
      (.ok (false, refresh_on, []), refresh_on, evs)

/-- Python truthiness of the value bound by
`changed = self._check_configuration_setting(...)` on line 248: the whole
`(bool, Optional[ConfigurationSetting])` pair is bound, and `bool(t)` for a
tuple `t` is `len(t) > 0`, so a 2-tuple is truthy whatever its components
hold. -/
def pyPairIsTruthy (changed : Bool × Option ConfigurationSetting) : Bool :=
  true

/-- The watch loop of `refresh_feature_flags` (lines 247-253): for each entry
of `dict(refresh_on)` it calls `_check_configuration_setting` and tests the
returned pair with `if changed:` (see `pyPairIsTruthy`); when the test passes
it performs the single `load_feature_flags(feature_flag_selectors, True)` call
and returns its results at once. -/
def refreshFFLoop (env : Env) (feature_flag_selectors : List SettingSelector)
    (entries : List SentinelEntry) :
    Except Nat (Bool × Option SentinelMap × Option (List FeatureFlagJson) × FiltersUsed)
      × List Event :=
  match entries with
  | [] => (.ok (false, none, none, emptyFiltersUsed), [])
  | ((key, label), etag) :: rest =>
    match check_configuration_setting env key label etag with
    | .error c => (.error c, [Event.checkSetting key label etag])
    | .ok changed =>
      if pyPairIsTruthy changed then
        let lf := load_feature_flags env feature_flag_selectors true
        (.ok (true, some lf.2.1, some lf.1, lf.2.2),
         [Event.checkSetting key label etag, Event.loadFlags])
      else
        match refreshFFLoop env feature_flag_selectors rest with
        | (r, evs) => (r, Event.checkSetting key label etag :: evs)

/-- Embedding of `_ConfigurationClientWrapper.refresh_feature_flags`: runs the
watch loop over the entries of `feature_flag_sentinel_keys = dict(refresh_on)`
and returns `(False, None, None, {})` when the loop falls through. -/
def refresh_feature_flags (env : Env) (refresh_on : SentinelMap)
    (feature_flag_selectors : List SettingSelector) :
    Except Nat (Bool × Option SentinelMap × Option (List FeatureFlagJson) × FiltersUsed)
      × List Event :=
  refreshFFLoop env feature_flag_selectors refresh_on

/-- The underlying `AzureAppConfigurationClient` transport, identified by how
it was constructed (the transport itself is an external collaborator). -/
inductive AppConfigClient
  | from_connection_string (connection_string user_agent : String)
      (retry_total retry_backoff_max : Int)
  | from_credential (endpoint : String) (credential : Option Nat)
      (user_agent : String) (retry_total retry_backoff_max : Int)
deriving DecidableEq, Repr

/-- Embedding of the `_ConfigurationClientWrapper` dataclass: endpoint, the
transport client, and the health fields with their dataclass defaults
(`backoff_end_time = 0`, `failed_attempts = 0`).  Dataclass equality is
field-wise, which the derived equality matches.  `backoff_end_time` is in
milliseconds of wall-clock time, carried exactly in `ℚ`. -/
structure ConfigurationClientWrapper where
  endpoint : String
  client : AppConfigClient
  backoff_end_time : ℚ
  failed_attempts : Nat
deriving DecidableEq, Repr

/-- `_ConfigurationClientWrapper.from_connection_string`: a fresh wrapper
around a connection-string transport, with default health fields. -/
def wrapper_from_connection_string (endpoint connection_string user_agent : String)
    (retry_total retry_backoff_max : Int) : ConfigurationClientWrapper :=
  ⟨endpoint,
   .from_connection_string connection_string user_agent retry_total retry_backoff_max,
   0, 0⟩

/-- `_ConfigurationClientWrapper.from_credential`: a fresh wrapper around a
credential transport, with default health fields.  The credential is an opaque
token (`Option` because `refresh_clients` passes `self._credential`, which may
be `None`). -/
def wrapper_from_credential (endpoint : String) (credential : Option Nat)
    (user_agent : String) (retry_total retry_backoff_max : Int) :
    ConfigurationClientWrapper :=
  ⟨endpoint,
   .from_credential endpoint credential user_agent retry_total retry_backoff_max,
   0, 0⟩

/-- `MINIMAL_CLIENT_REFRESH_INTERVAL = 30` seconds. -/
def MINIMAL_CLIENT_REFRESH_INTERVAL : ℚ := 30

/-- `FALLBACK_CLIENT_REFRESH_EXPIRED_INTERVAL = 3600` seconds. -/
def FALLBACK_CLIENT_REFRESH_EXPIRED_INTERVAL : ℚ := 3600

/-- The state of a `ConfigurationClientManager` instance: the ordered replica
pool and the constructor-supplied configuration.  Times are wall-clock seconds
(`ℚ`), as produced by `time.time()`. -/
structure ConfigurationClientManager where
  replica_clients : List ConfigurationClientWrapper
  original_endpoint : String
  original_connection_string : Option String
  credential : Option Nat
  user_agent : String
  retry_total : Int
  retry_backoff_max : Int
  replica_discovery_enabled : Bool
  next_update_time : ℚ
  min_backoff_sec : ℚ
  max_backoff_sec : ℚ
deriving DecidableEq, Repr

/-- Python truthiness of a string: non-empty. -/
def pyStrTruthy (s : String) : Bool := s ≠ ""

/-- Python truthiness of an `Optional[str]`: present and non-empty. -/
def pyOptStrTruthy : Option String → Bool
  | none => false
  | some s => s ≠ ""

/-- Embedding of `ConfigurationClientManager.__init__`.

`now` is the `time.time()` reading and `failover_endpoints` is what the
initial `find_auto_failover_endpoints(endpoint, replica_discovery_enabled)`
call returned (`_discovery.py` is an external collaborator).  The first
branch is taken when `connection_string and endpoint` is truthy, the second
when `endpoint and credential` is; otherwise the `ValueError` is raised.  The
second component of the result is the list of wrapper clients constructed
during the call: on the raising path no client has been built. -/
def ConfigurationClientManager.init (connection_string : Option String)
    (endpoint : String) (credential : Option Nat) (user_agent : String)
    (retry_total retry_backoff_max : Int) (replica_discovery_enabled : Bool)
    (min_backoff_sec max_backoff_sec : ℚ) (now : ℚ)
    (failover_endpoints : List String) :
    Except String ConfigurationClientManager × List ConfigurationClientWrapper :=
  if pyOptStrTruthy connection_string = true ∧ pyStrTruthy endpoint = true then
    let cs := connection_string.getD ""
    let clients :=
      wrapper_from_connection_string endpoint cs user_agent retry_total retry_backoff_max ::
        failover_endpoints.map (fun failover_endpoint =>
          wrapper_from_connection_string failover_endpoint
            (cs.replace endpoint failover_endpoint) user_agent retry_total retry_backoff_max)
    (.ok ⟨clients, endpoint, connection_string, credential, user_agent, retry_total,
          retry_backoff_max, replica_discovery_enabled,
          now + MINIMAL_CLIENT_REFRESH_INTERVAL, min_backoff_sec, max_backoff_sec⟩,
     clients)
  else if pyStrTruthy endpoint = true ∧ credential.isSome = true then
    let clients :=
      wrapper_from_credential endpoint credential user_agent retry_total retry_backoff_max ::
        failover_endpoints.map (fun failover_endpoint =>
          wrapper_from_credential failover_endpoint credential user_agent retry_total
            retry_backoff_max)
    (.ok ⟨clients, endpoint, connection_string, credential, user_agent, retry_total,
          retry_backoff_max, replica_discovery_enabled,
          now + MINIMAL_CLIENT_REFRESH_INTERVAL, min_backoff_sec, max_backoff_sec⟩,
     clients)
  else
    (.error "Please pass either endpoint and credential, or a connection string with a value.",
     [])

/-- The inner linear scan of `refresh_clients` (lines 372-377): the first
existing pool client whose endpoint equals the discovered endpoint. -/
def findClient (clients : List ConfigurationClientWrapper) (ep : String) :
    Option ConfigurationClientWrapper :=
  clients.find? (fun client => client.endpoint == ep)

/-- Construction of a replacement client in `refresh_clients` (lines 378-403):
when the pool was built from a truthy connection string, substitute the
original endpoint inside it; otherwise build from the shared credential. -/
def ConfigurationClientManager.newReplicaClient (m : ConfigurationClientManager)
    (failover_endpoint : String) : ConfigurationClientWrapper :=
  if pyOptStrTruthy m.original_connection_string then
    wrapper_from_connection_string failover_endpoint
      ((m.original_connection_string.getD "").replace m.original_endpoint failover_endpoint)
      m.user_agent m.retry_total m.retry_backoff_max
  else
    wrapper_from_credential failover_endpoint m.credential m.user_agent m.retry_total
      m.retry_backoff_max

/-- The per-endpoint step of the pool rebuild: reuse the first pool client
with a matching endpoint, else construct a new one. -/
def ConfigurationClientManager.replicaFor (m : ConfigurationClientManager)
    (failover_endpoint : String) : ConfigurationClientWrapper :=
  match findClient m.replica_clients failover_endpoint with
  | some client => client
  | none => m.newReplicaClient failover_endpoint

/-- The pool rebuild of `refresh_clients` (lines 370-404):
`new_clients = [self._replica_clients[0]]` followed by one entry per
discovered endpoint.  On an empty pool the Python code would raise an
`IndexError`; the pool of any successfully constructed manager is non-empty,
and the theorems below only consider non-empty pools. -/
def ConfigurationClientManager.rebuildClients (m : ConfigurationClientManager)
    (failover_endpoints : List String) : List ConfigurationClientWrapper :=
  match m.replica_clients with
  | [] => []
  | c0 :: _ => c0 :: failover_endpoints.map m.replicaFor

/-- Embedding of `ConfigurationClientManager.refresh_clients`.  `now` is the
`time.time()` reading and `discovered` is what
`find_auto_failover_endpoints(self._original_endpoint, ...)` returns when
called (`None` meaning the SRV record was not found).  The trace records
whether the discovery collaborator was invoked and any transport closures
(the rebuild performs none). -/
def ConfigurationClientManager.refresh_clients (m : ConfigurationClientManager)
    (now : ℚ) (discovered : Option (List String)) :
    ConfigurationClientManager × List Event :=
  if !m.replica_discovery_enabled then (m, [])
  else if now < m.next_update_time then (m, [])
  else
    match discovered with
    | none =>
      ({ m with next_update_time := now + FALLBACK_CLIENT_REFRESH_EXPIRED_INTERVAL },
       [Event.discover m.original_endpoint])
    | some failover_endpoints =>
      if failover_endpoints.length = 0 then
        ({ m with next_update_time := now + MINIMAL_CLIENT_REFRESH_INTERVAL },
         [Event.discover m.original_endpoint])
      else
        ({ m with replica_clients := m.rebuildClients failover_endpoints,
                  next_update_time := now + MINIMAL_CLIENT_REFRESH_INTERVAL },
         [Event.discover m.original_endpoint])

/-- Embedding of `ConfigurationClientManager._calculate_backoff`.  `u` is the
`random.uniform(0.0, 1.0)` draw; the arithmetic is carried exactly in `ℚ`
(Python integers are unbounded, so `1 << min(attempts, 63)` is exactly
`2 ^ min attempts 63`; the `<= 0` arm of the clamp models the overflow guard,
which with exact arithmetic can only fire through the sign of
`max(1, min_backoff_milliseconds)`, never through wrap-around). -/
def ConfigurationClientManager.calculate_backoff (m : ConfigurationClientManager)
    (attempts : Nat) (u : ℚ) : ℚ :=
  let max_attempts : Nat := 63
  let ms_per_second : ℚ := 1000
  let min_backoff_milliseconds := m.min_backoff_sec * ms_per_second
  let max_backoff_milliseconds := m.max_backoff_sec * ms_per_second
  if m.max_backoff_sec ≤ m.min_backoff_sec then
    min_backoff_milliseconds
  else
    let calculated_milliseconds :=
      max 1 min_backoff_milliseconds * 2 ^ (Nat.min attempts max_attempts)
    let clamped_milliseconds :=
      if max_backoff_milliseconds < calculated_milliseconds ∨ calculated_milliseconds ≤ 0 then
        max_backoff_milliseconds
      else calculated_milliseconds
    min_backoff_milliseconds + u * (clamped_milliseconds - min_backoff_milliseconds)

/-- Embedding of `ConfigurationClientManager.__eq__`: two managers are equal
iff their replica-client lists have the same length and are element-wise
equal, i.e. iff the lists are equal. -/
def managerEq (a b : ConfigurationClientManager) : Bool :=
  decide (a.replica_clients = b.replica_clients)

/-- Embedding of `ConfigurationClientManager.close`: closes every client
currently in the pool, in order; the trace records the closures. -/
def ConfigurationClientManager.closePool (m : ConfigurationClientManager) : List Event :=
  m.replica_clients.map (fun client => Event.closeClient client.endpoint)

/-- C4: `_check_configuration_setting` is, as a total function of the server's
response: `(changed=true, the new setting)` on a new value; `(changed=false,
none)` on not-modified; `(changed=true, none)` on a 404 when an etag had been
supplied; `(changed=false, none)` on a 404 with no etag; and any other
transport error propagates unhandled with its status. -/
theorem checkConfigurationSettingCases (env : Env) (key label : String)
    (etag : Option String) :
    (∀ s, env.get key label etag = .ok (some s) →
        check_configuration_setting env key label etag = .ok (true, some s))
  ∧ (env.get key label etag = .ok none →
        check_configuration_setting env key label etag = .ok (false, none))
  ∧ (env.get key label etag = .error 404 → etag ≠ none →
        check_configuration_setting env key label etag = .ok (true, none))
  ∧ (env.get key label etag = .error 404 → etag = none →
        check_configuration_setting env key label etag = .ok (false, none))
  ∧ (∀ status, env.get key label etag = .error status → status ≠ 404 →
        check_configuration_setting env key label etag = .error status) := by
  unfold check_configuration_setting
  refine ⟨?_, ?_, ?_, ?_, ?_⟩
  · intro s h; rw [h]
  · intro h; rw [h]
  · intro h hne; rw [h]; simp [Option.isSome_iff_ne_none, hne]
  · intro h he; rw [h]; simp [he]
  · intro status h hne; rw [h]; simp [hne]

/-- Witness for `checkConfigurationSettingCases` at a concrete environment:
the server reports not-modified and the check returns `(false, none)`. -/
theorem checkConfigurationSettingCasesWitness :
    (Env.mk (fun _ _ _ => .ok none) (fun _ _ => []) [] [] []).get "k" "l" none = .ok none
  ∧ check_configuration_setting
      (Env.mk (fun _ _ _ => .ok none) (fun _ _ => []) [] [] []) "k" "l" none
      = .ok (false, none) :=
  ⟨rfl,
   (checkConfigurationSettingCases
     (Env.mk (fun _ _ _ => .ok none) (fun _ _ => []) [] [] []) "k" "l" none).2.1 rfl⟩

/-- C6: with degenerate bounds (`max_backoff_sec ≤ min_backoff_sec`) the
backoff is exactly `min_backoff_sec * 1000` milliseconds regardless of the
attempt count and the jitter draw; otherwise it lies in the closed interval
from `min_backoff_sec * 1000` to `max_backoff_sec * 1000`. -/
theorem calculateBackoffBounds (m : ConfigurationClientManager) (attempts : Nat)
    (u : ℚ) (h0 : 0 ≤ u) (h1 : u ≤ 1) :
    (m.max_backoff_sec ≤ m.min_backoff_sec →
        m.calculate_backoff attempts u = m.min_backoff_sec * 1000)
  ∧ (m.min_backoff_sec < m.max_backoff_sec →
        m.min_backoff_sec * 1000 ≤ m.calculate_backoff attempts u
      ∧ m.calculate_backoff attempts u ≤ m.max_backoff_sec * 1000) := by
  unfold ConfigurationClientManager.calculate_backoff
  constructor
  · intro h; rw [if_pos h]
  · intro h
    rw [if_neg (not_le.mpr h)]
    have hAB : m.min_backoff_sec * 1000 < m.max_backoff_sec * 1000 := by
      have : (0 : ℚ) < 1000 := by norm_num
      exact mul_lt_mul_of_pos_right h this
    have hpow : (1 : ℚ) ≤ 2 ^ (Nat.min attempts 63) := one_le_pow₀ (by norm_num)
    have hA : m.min_backoff_sec * 1000 ≤ max 1 (m.min_backoff_sec * 1000) * 2 ^ (Nat.min attempts 63) := by
      have h1A : m.min_backoff_sec * 1000 ≤ max 1 (m.min_backoff_sec * 1000) := le_max_right _ _
      have h0A : (0 : ℚ) ≤ max 1 (m.min_backoff_sec * 1000) :=
        le_trans (by norm_num) (le_max_left _ _)
      calc m.min_backoff_sec * 1000 ≤ max 1 (m.min_backoff_sec * 1000) := h1A
        _ = max 1 (m.min_backoff_sec * 1000) * 1 := (mul_one _).symm
        _ ≤ max 1 (m.min_backoff_sec * 1000) * 2 ^ (Nat.min attempts 63) :=
            mul_le_mul_of_nonneg_left hpow h0A
    dsimp only
    by_cases hcl : m.max_backoff_sec * 1000 < max 1 (m.min_backoff_sec * 1000) * 2 ^ (Nat.min attempts 63)
        ∨ max 1 (m.min_backoff_sec * 1000) * 2 ^ (Nat.min attempts 63) ≤ 0
    · rw [if_pos hcl]
      constructor
      · nlinarith [mul_nonneg h0 (sub_nonneg.mpr hAB.le)]
      · nlinarith [mul_le_mul_of_nonneg_right h1 (sub_nonneg.mpr hAB.le)]
    · rw [if_neg hcl]
      push_neg at hcl
      obtain ⟨hle, _⟩ := hcl
      constructor
      · nlinarith [mul_nonneg h0 (sub_nonneg.mpr hA)]
      · nlinarith [mul_le_mul_of_nonneg_right h1 (sub_nonneg.mpr hA)]

/-- A concrete manager configuration used by witnesses: 30s/600s backoff
bounds, discovery enabled, one credential client. -/
def mgrW : ConfigurationClientManager :=
  ⟨[wrapper_from_credential "e" (some 0) "ua" 3 30], "e", none, some 0, "ua", 3, 30,
   true, 30, 30, 600⟩

/-- Witness for `calculateBackoffBounds`: with bounds 30s/600s, two failed
attempts and jitter draw 1/2 the backoff lies between 30000 ms and 600000 ms. -/
theorem calculateBackoffBoundsWitness :
    (0 : ℚ) ≤ 1 / 2 ∧ (1 / 2 : ℚ) ≤ 1 ∧ mgrW.min_backoff_sec < mgrW.max_backoff_sec
  ∧ mgrW.min_backoff_sec * 1000 ≤ mgrW.calculate_backoff 2 (1 / 2)
  ∧ mgrW.calculate_backoff 2 (1 / 2) ≤ mgrW.max_backoff_sec * 1000 :=
  ⟨by norm_num, by norm_num, by decide,
   ((calculateBackoffBounds mgrW 2 (1 / 2) (by norm_num) (by norm_num)).2 (by decide)).1,
   ((calculateBackoffBounds mgrW 2 (1 / 2) (by norm_num) (by norm_num)).2 (by decide)).2⟩

/-- An environment whose server answers every conditional get with
not-modified and every list with no settings. -/
def envNotModified : Env := ⟨fun _ _ _ => .ok none, fun _ _ => [], [], [], []⟩

/-- A watched feature-flag sentinel map with one previously observed entry. -/
def ronOne : SentinelMap := [(("k", "l"), some "etag1")]

/-- One selector. -/
def selsOne : List SettingSelector := [⟨"ks", "ls"⟩]

/-- C1 (failing input): the server reports not-modified for the single
watched feature-flag key and no key was deleted, yet `refresh_feature_flags`
returns `changed=true` with reloaded (empty) results and its trace contains
the `load_feature_flags` call.  The cause is line 248 of the source: the whole
pair returned by `_check_configuration_setting` is bound to `changed` and a
2-tuple is always truthy, contradicting the method's own docstring ("the
first item being true/false if a change is detected") and the unpacking used
by the sibling `refresh_configuration_settings`. -/
theorem refreshFeatureFlagsReloadsWithoutChange :
    envNotModified.get "k" "l" (some "etag1") = .ok none
  ∧ (refresh_feature_flags envNotModified ronOne selsOne).1
      = .ok (true, some [], some [], emptyFiltersUsed)
  ∧ Event.loadFlags ∈ (refresh_feature_flags envNotModified ronOne selsOne).2 := by
  refine ⟨rfl, by rfl, by decide⟩

/-- An environment whose list operation returns one setting for the watched
`(k, l)` pair carrying a fresh etag. -/
def envFreshEtag : Env :=
  ⟨fun _ _ _ => .ok none, fun _ _ => [⟨"k", "l", some "etag2", "v", false, []⟩], [], [], []⟩

/-- C2 (counterexample): `load_configuration_settings` does not leave the
caller's map holding its original entries.  With watched entry
`(k, l) ↦ etag1` and a listed setting `(k, l)` carrying `etag2`, the value
held by the caller's `refresh_on` object after the call (equal, through the
aliasing of source line 148, to the returned sentinel map) differs from the
original map. -/
theorem loadConfigurationSettingsMutatesCallerMap :
    (load_configuration_settings envFreshEtag selsOne ronOne).2 ≠ ronOne := by
  decide

/-- C3 (counterexample): construction with BOTH a connection secret and a
credential (plus an endpoint) does not fail: it succeeds, taking the
connection-string branch, because `__init__` tests `connection_string and
endpoint` first and returns before ever examining the credential. -/
theorem initWithBothSucceeds :
    (ConfigurationClientManager.init (some "Endpoint=e;Secret=s") "e" (some 0) "ua"
      3 30 false 30 600 0 []).1.isOk = true := by
  decide

/-- C3 (amended): construction fails with the `ValueError` (and constructs
zero replica clients) exactly when NEITHER a truthy connection string with a
truthy endpoint NOR a truthy endpoint with a credential is supplied; when both
a connection secret and a credential are supplied alongside an endpoint,
construction succeeds and the pool is built from the connection string. -/
theorem initFailsIffNeitherPair (connection_string : Option String) (endpoint : String)
    (credential : Option Nat) (user_agent : String) (retry_total retry_backoff_max : Int)
    (replica_discovery_enabled : Bool) (min_backoff_sec max_backoff_sec now : ℚ)
    (failover_endpoints : List String) :
    ((ConfigurationClientManager.init connection_string endpoint credential user_agent
        retry_total retry_backoff_max replica_discovery_enabled min_backoff_sec
        max_backoff_sec now failover_endpoints).1.isOk = true
      ↔ ((pyOptStrTruthy connection_string = true ∧ pyStrTruthy endpoint = true)
          ∨ (pyStrTruthy endpoint = true ∧ credential.isSome = true)))
  ∧ (¬ ((pyOptStrTruthy connection_string = true ∧ pyStrTruthy endpoint = true)
        ∨ (pyStrTruthy endpoint = true ∧ credential.isSome = true)) →
      (ConfigurationClientManager.init connection_string endpoint credential user_agent
        retry_total retry_backoff_max replica_discovery_enabled min_backoff_sec
        max_backoff_sec now failover_endpoints).2 = [])
  ∧ (pyOptStrTruthy connection_string = true ∧ pyStrTruthy endpoint = true →
      ∀ mgr, (ConfigurationClientManager.init connection_string endpoint credential
          user_agent retry_total retry_backoff_max replica_discovery_enabled
          min_backoff_sec max_backoff_sec now failover_endpoints).1 = .ok mgr →
        mgr.replica_clients.head? = some (wrapper_from_connection_string endpoint
          (connection_string.getD "") user_agent retry_total retry_backoff_max)) := by
  unfold ConfigurationClientManager.init
  by_cases h1 : pyOptStrTruthy connection_string = true ∧ pyStrTruthy endpoint = true
  · rw [if_pos h1]
    refine ⟨by simp [Except.isOk, Except.toBool, h1], by simp [h1], ?_⟩
    intro _ mgr hmgr
    cases hmgr
    rfl
  · rw [if_neg h1]
    by_cases h2 : pyStrTruthy endpoint = true ∧ credential.isSome = true
    · rw [if_pos h2]
      refine ⟨by simp [Except.isOk, Except.toBool, h1, h2], by simp [h1, h2], ?_⟩
      intro hc
      exact absurd hc h1
    · rw [if_neg h2]
      refine ⟨by simp [Except.isOk, Except.toBool, h1, h2], by intro _; rfl, ?_⟩
      intro hc
      exact absurd hc h1

/-- Witness for `initFailsIffNeitherPair`: with neither pair supplied the
construction errors and constructs zero clients. -/
theorem initFailsIffNeitherPairWitness :
    (ConfigurationClientManager.init none "e" none "ua" 3 30 false 30 600 0 []).1.isOk
        = false
  ∧ (ConfigurationClientManager.init none "e" none "ua" 3 30 false 30 600 0 []).2 = [] := by
  have h := initFailsIffNeitherPair none "e" none "ua" 3 30 false 30 600 0 []
  refine ⟨?_, h.2.1 (by decide)⟩
  have := h.1
  by_cases hb : (ConfigurationClientManager.init none "e" none "ua" 3 30 false 30 600 0
      []).1.isOk = true
  · exact absurd (this.mp hb) (by decide)
  · simpa using hb

/-- A backed-off wrapper for endpoint `a` (the original). -/
def wrapperA : ConfigurationClientWrapper :=
  ⟨"a", .from_credential "a" (some 0) "ua" 3 30, 5, 2⟩

/-- A backed-off wrapper for endpoint `b` (a previously discovered replica). -/
def wrapperB : ConfigurationClientWrapper :=
  ⟨"b", .from_credential "b" (some 0) "ua" 3 30, 7, 1⟩

/-- A manager whose pool holds `wrapperA` (original) and `wrapperB`, with
discovery enabled and due. -/
def mgrAB : ConfigurationClientManager :=
  ⟨[wrapperA, wrapperB], "a", none, some 0, "ua", 3, 30, true, 0, 30, 600⟩

/-- C9 (failing input): when discovery stops advertising endpoint `b`, the
rebuild drops `wrapperB` from the pool but performs no transport closure at
all — the trace of the rebuilding `refresh_clients` call holds only the
discovery call, and the only closures in the module are those of
`close()`, which walks the CURRENT pool (so a dropped wrapper is never
closed). -/
theorem refreshClientsDropsWithoutClosing :
    wrapperB ∈ mgrAB.replica_clients
  ∧ wrapperB ∉ (mgrAB.refresh_clients 100 (some ["c"])).1.replica_clients
  ∧ (mgrAB.refresh_clients 100 (some ["c"])).2 = [Event.discover "a"]
  ∧ Event.closeClient "b" ∉ (mgrAB.refresh_clients 100 (some ["c"])).2
  ∧ Event.closeClient "b" ∉ (mgrAB.refresh_clients 100 (some ["c"])).1.closePool := by
  refine ⟨by decide, by decide, by rfl, by decide, by decide⟩

/-- C8: `refresh_clients` leaves the replica pool unchanged (so that manager
equality, which compares only the pools, holds) in each of the four cases:
discovery disabled, the discovery time not yet reached (in both of these no
discovery call is made — the trace is empty), discovery returning unknown
(`None`, with the next attempt deferred by the long fallback interval), and
discovery returning an empty endpoint list (next attempt deferred by the
short minimal interval). -/
theorem refreshClientsFrameCases (m : ConfigurationClientManager) (now : ℚ)
    (discovered : Option (List String)) :
    (m.replica_discovery_enabled = false → m.refresh_clients now discovered = (m, []))
  ∧ (now < m.next_update_time → m.refresh_clients now discovered = (m, []))
  ∧ (m.replica_discovery_enabled = true → m.next_update_time ≤ now →
      (m.refresh_clients now none).1.replica_clients = m.replica_clients
      ∧ (m.refresh_clients now none).1.next_update_time
          = now + FALLBACK_CLIENT_REFRESH_EXPIRED_INTERVAL
      ∧ managerEq (m.refresh_clients now none).1 m = true)
  ∧ (m.replica_discovery_enabled = true → m.next_update_time ≤ now →
      (m.refresh_clients now (some [])).1.replica_clients = m.replica_clients
      ∧ (m.refresh_clients now (some [])).1.next_update_time
          = now + MINIMAL_CLIENT_REFRESH_INTERVAL
      ∧ managerEq (m.refresh_clients now (some [])).1 m = true) := by
  refine ⟨?_, ?_, ?_, ?_⟩
  · intro h
    simp [ConfigurationClientManager.refresh_clients, h]
  · intro h
    by_cases hd : m.replica_discovery_enabled
    · simp [ConfigurationClientManager.refresh_clients, hd, h]
    · simp [ConfigurationClientManager.refresh_clients, hd]
  · intro hd ht
    simp [ConfigurationClientManager.refresh_clients, hd, not_lt.mpr ht, managerEq]
  · intro hd ht
    simp [ConfigurationClientManager.refresh_clients, hd, not_lt.mpr ht, managerEq]

/-- Witness for `refreshClientsFrameCases`: for the concrete manager `mgrAB`
with the discovery time due, an unknown discovery result leaves the pool
untouched and schedules the retry one hour out. -/
theorem refreshClientsFrameCasesWitness :
    mgrAB.replica_discovery_enabled = true
  ∧ mgrAB.next_update_time ≤ 100
  ∧ (mgrAB.refresh_clients 100 none).1.replica_clients = mgrAB.replica_clients
  ∧ (mgrAB.refresh_clients 100 none).1.next_update_time
      = 100 + FALLBACK_CLIENT_REFRESH_EXPIRED_INTERVAL
  ∧ managerEq (mgrAB.refresh_clients 100 none).1 mgrAB = true :=
  ⟨by decide, by decide,
   ((refreshClientsFrameCases mgrAB 100 none).2.2.1 (by decide) (by decide)).1,
   ((refreshClientsFrameCases mgrAB 100 none).2.2.1 (by decide) (by decide)).2.1,
   ((refreshClientsFrameCases mgrAB 100 none).2.2.1 (by decide) (by decide)).2.2⟩

/-- C2 (amended): the conditional-check phase of
`refresh_configuration_settings` operates on the copy `dict(refresh_on)` and
never mutates the caller's map — on the no-change result and on a propagated
transport error the caller's object still holds its original entries — but
the triggered reload does NOT hand back an updated copy: through the aliasing
of `sentinel_keys` (source line 148) it mutates the caller's map in place to
the very sentinel map it returns. -/
theorem refreshPreservesCallerMapUnlessReload (env : Env)
    (selects : List SettingSelector) (refresh_on : SentinelMap) :
    ((refresh_configuration_settings env selects refresh_on).2.1 = refresh_on
      ∨ (refresh_configuration_settings env selects refresh_on).2.1
          = (load_configuration_settings env selects refresh_on).2)
  ∧ (∀ mp cfgs,
      (refresh_configuration_settings env selects refresh_on).1 = .ok (false, mp, cfgs) →
      (refresh_configuration_settings env selects refresh_on).2.1 = refresh_on) 
  ∧ (∀ c, (refresh_configuration_settings env selects refresh_on).1 = .error c →
      (refresh_configuration_settings env selects refresh_on).2.1 = refresh_on)
  ∧ (∀ mp cfgs,
      (refresh_configuration_settings env selects refresh_on).1 = .ok (true, mp, cfgs) →
      (refresh_configuration_settings env selects refresh_on).2.1 = mp
      ∧ mp = (load_configuration_settings env selects refresh_on).2) := by
  unfold refresh_configuration_settings
  rcases hloop : refreshCfgLoop env refresh_on refresh_on with ⟨res, evs⟩
  rcases res with c | ⟨need, mend⟩
  · refine ⟨Or.inl rfl, ?_, ?_, ?_⟩
    · intro mp cfgs h; simp at h
    · intro c2 h; rfl
    · intro mp cfgs h; simp at h
  · rcases need with _ | _
    · refine ⟨Or.inl (by simp), ?_, ?_, ?_⟩
      · intro mp cfgs h; simp
      · intro c2 h; simp at h
      · intro mp cfgs h; simp at h
    · refine ⟨Or.inr (by simp), ?_, ?_, ?_⟩
      · intro mp cfgs h; simp at h
      · intro c2 h; simp at h
      · intro mp cfgs h
        simp only [if_pos] at h ⊢
        simp at h
        obtain ⟨hmp, hcfgs⟩ := h
        simp [hmp]

/-- Witness for `refreshPreservesCallerMapUnlessReload`: at the not-modified
environment the result is the no-change triple and the caller's map is left
holding its original entry. -/
theorem refreshPreservesCallerMapUnlessReloadWitness :
    (refresh_configuration_settings envNotModified selsOne ronOne).1
      = .ok (false, ronOne, [])
  ∧ (refresh_configuration_settings envNotModified selsOne ronOne).2.1 = ronOne :=
  ⟨by rfl,
   (refreshPreservesCallerMapUnlessReload envNotModified selsOne ronOne).2.1 ronOne []
     (by rfl)⟩

/-- When the check loop of `refresh_configuration_settings` completes without
a propagated transport error, its trace is exactly one conditional check per
watched entry, in map order, and the accumulated `need_refresh` flag is set
iff some entry's check reported a change. -/
theorem refreshCfgLoop_ok_spec (env : Env) (entries : List SentinelEntry) :
    ∀ (m : SentinelMap) (b : Bool) (m2 : SentinelMap),
      (refreshCfgLoop env entries m).1 = .ok (b, m2) →
      (refreshCfgLoop env entries m).2
          = entries.map (fun e => Event.checkSetting e.1.1 e.1.2 e.2)
      ∧ (b = true ↔ ∃ e ∈ entries, ∃ upd,
            check_configuration_setting env e.1.1 e.1.2 e.2 = .ok (true, upd)) := by
  induction entries with
  | nil =>
    intro m b m2 h
    injection h with h2
    injection h2 with hb hm
    subst hb
    simp [refreshCfgLoop]
  | cons e rest ih =>
    obtain ⟨⟨key, label⟩, etag⟩ := e
    intro m b m2 h
    simp only [refreshCfgLoop] at h ⊢
    obtain ⟨cres, hc⟩ : ∃ r, check_configuration_setting env key label etag = r := ⟨_, rfl⟩
    rw [hc] at h ⊢
    cases cres with
    | error c => simp at h
    | ok p =>
      obtain ⟨changed, upd⟩ := p
      dsimp only at h ⊢
      obtain ⟨rp, hrec⟩ : ∃ r,
          refreshCfgLoop env rest (sentinelWriteBack m key label upd) = r := ⟨_, rfl⟩
      rw [hrec] at h ⊢
      obtain ⟨rres, revs⟩ := rp
      cases rres with
      | error c => simp at h
      | ok q =>
        obtain ⟨nr, me⟩ := q
        dsimp only at h ⊢
        injection h with h2
        injection h2 with hb hm
        have ihspec := ih (sentinelWriteBack m key label upd) nr me (by rw [hrec])
        rw [hrec] at ihspec
        constructor
        · simp only [List.map_cons]
          exact congrArg _ ihspec.1
        · subst hb
          constructor
          · intro hor
            rcases Bool.or_eq_true_iff.mp hor with hch | hnr
            · exact ⟨((key, label), etag), List.mem_cons_self _ _, upd, by rw [hc, hch]⟩
            · obtain ⟨e2, he2, upd2, hupd2⟩ := ihspec.2.mp hnr
              exact ⟨e2, List.mem_cons_of_mem _ he2, upd2, hupd2⟩
          · rintro ⟨e2, he2, upd2, hupd2⟩
            rcases List.mem_cons.mp he2 with rfl | he2r
            · rw [hc] at hupd2
              injection hupd2 with h3
              injection h3 with h4 h5
              simp [h4]
            · exact Bool.or_eq_true_iff.mpr (Or.inr (ihspec.2.mpr ⟨e2, he2r, upd2, hupd2⟩))

/-- The trace of the check loop never contains a load call. -/
theorem checkTrace_count_loadConfig (entries : List SentinelEntry) :
    (entries.map (fun e => Event.checkSetting e.1.1 e.1.2 e.2)).count Event.loadConfig
      = 0 := by
  rw [List.count_eq_zero]
  intro hmem
  obtain ⟨e, _, he⟩ := List.mem_map.mp hmem
  exact Event.noConfusion he

/-- C5: whenever `refresh_configuration_settings` returns (rather than
propagating a transport error), its trace performed the conditional check on
every watched entry in map order; `changed` is true iff at least one entry's
check reported a change; when changed, the trace holds exactly one
`load_configuration_settings` call (after all the checks) and the returned
settings and sentinel map are that single load's outputs on the original
selector set and the original pre-check watched-keys map; when no entry
changed the original map and an empty settings list are returned with no load
performed. -/
theorem refreshConfigurationSettingsSpec (env : Env) (selects : List SettingSelector)
    (refresh_on : SentinelMap) (b : Bool) (mp : SentinelMap)
    (cfgs : List ConfigurationSetting)
    (h : (refresh_configuration_settings env selects refresh_on).1 = .ok (b, mp, cfgs)) :
    ((refresh_configuration_settings env selects refresh_on).2.2
        = refresh_on.map (fun e => Event.checkSetting e.1.1 e.1.2 e.2)
          ++ (if b then [Event.loadConfig] else []))
  ∧ (b = true ↔ ∃ e ∈ refresh_on, ∃ upd,
        check_configuration_setting env e.1.1 e.1.2 e.2 = .ok (true, upd))
  ∧ (b = true →
        ((refresh_configuration_settings env selects refresh_on).2.2).count
            Event.loadConfig = 1
        ∧ cfgs = (load_configuration_settings env selects refresh_on).1
        ∧ mp = (load_configuration_settings env selects refresh_on).2)
  ∧ (b = false → mp = refresh_on ∧ cfgs = []
        ∧ ((refresh_configuration_settings env selects refresh_on).2.2).count
            Event.loadConfig = 0) := by
  unfold refresh_configuration_settings at h ⊢
  obtain ⟨lp, hloop⟩ : ∃ r, refreshCfgLoop env refresh_on refresh_on = r := ⟨_, rfl⟩
  rw [hloop] at h ⊢
  obtain ⟨res, evs⟩ := lp
  cases res with
  | error c => simp at h
  | ok q =>
    obtain ⟨need, mend⟩ := q
    dsimp only at h ⊢
    have lspec := refreshCfgLoop_ok_spec env refresh_on refresh_on need mend
      (by rw [hloop])
    rw [hloop] at lspec
    dsimp only at lspec
    cases need with
    | false =>
      simp only [Bool.false_eq_true, if_false] at h ⊢
      injection h with h2
      injection h2 with hb hrest
      injection hrest with hmp hcfgs
      subst hb
      refine ⟨?_, ?_, ?_, ?_⟩
      · simp [lspec.1]
      · exact lspec.2
      · intro hfalse; cases hfalse
      · intro _
        exact ⟨hmp.symm, hcfgs.symm, by rw [lspec.1, checkTrace_count_loadConfig]⟩
    | true =>
      simp only [if_true] at h ⊢
      injection h with h2
      injection h2 with hb hrest
      injection hrest with hmp hcfgs
      subst hb
      refine ⟨?_, ?_, ?_, ?_⟩
      · simp [lspec.1]
      · exact lspec.2
      · intro _
        refine ⟨?_, hcfgs.symm, hmp.symm⟩
        rw [List.count_append, lspec.1, checkTrace_count_loadConfig]
        rfl
      · intro hfalse; cases hfalse

/-- Witness for `refreshConfigurationSettingsSpec`: at the not-modified
environment the refresh returns the no-change triple without performing a
load. -/
theorem refreshConfigurationSettingsSpecWitness :
    (refresh_configuration_settings envNotModified selsOne ronOne).1
      = .ok (false, ronOne, [])
  ∧ ((refresh_configuration_settings envNotModified selsOne ronOne).2.2).count
      Event.loadConfig = 0 :=
  ⟨by rfl,
   ((refreshConfigurationSettingsSpec envNotModified selsOne ronOne false ronOne []
      (by rfl)).2.2.2 rfl).2.2⟩

/-- When the fulfilled discovery preconditions make `refresh_clients` rebuild,
the new pool is exactly `rebuildClients` of the discovered endpoints. -/
theorem refresh_clients_rebuild_eq (m : ConfigurationClientManager) (now : ℚ)
    (eps : List String) (hde : m.replica_discovery_enabled = true)
    (ht : m.next_update_time ≤ now) (hne : eps ≠ []) :
    (m.refresh_clients now (some eps)).1.replica_clients = m.rebuildClients eps := by
  have h2 : ¬ (now < m.next_update_time) := not_lt.mpr ht
  simp [ConfigurationClientManager.refresh_clients, hde, h2,
    List.length_eq_zero, hne]

/-- In a pool with pair-wise distinct endpoints, the linear scan for a member
client's endpoint finds that very client. -/
theorem findClient_mem_nodup (pool : List ConfigurationClientWrapper)
    (hnd : (pool.map ConfigurationClientWrapper.endpoint).Nodup) :
    ∀ c ∈ pool, findClient pool c.endpoint = some c := by
  induction pool with
  | nil => intro c hc; cases hc
  | cons d tl ih =>
    rw [List.map_cons] at hnd
    obtain ⟨hnotin, hndtl⟩ := List.nodup_cons.mp hnd
    intro c hc
    rcases List.mem_cons.mp hc with rfl | hctl
    · rw [findClient, List.find?_cons_of_pos _ (by simp)]
    · have hd : (d.endpoint == c.endpoint) = false := by
        refine beq_eq_false_iff_ne.mpr ?_
        intro he
        apply hnotin
        rw [he]
        exact List.mem_map_of_mem _ hctl
      rw [findClient, List.find?_cons_of_neg _ (by simp [hd])]
      exact ih hndtl c hctl

/-- Mapping the per-endpoint rebuild step over the endpoints of clients that
the scan finds again reproduces those clients unchanged. -/
theorem replicaFor_map_eq (m : ConfigurationClientManager) :
    ∀ (sub : List ConfigurationClientWrapper),
      (∀ c ∈ sub, findClient m.replica_clients c.endpoint = some c) →
      (sub.map ConfigurationClientWrapper.endpoint).map m.replicaFor = sub := by
  intro sub
  induction sub with
  | nil => intro _; rfl
  | cons c tl ih =>
    intro hsub
    rw [List.map_cons, List.map_cons]
    congr 1
    · rw [ConfigurationClientManager.replicaFor, hsub c (List.mem_cons_self _ _)]
    · exact ih (fun x hx => hsub x (List.mem_cons_of_mem _ hx))

/-- C7: when `refresh_clients` rebuilds the pool from a non-empty discovered
endpoint list, the pre-existing original client stays at position 0; every
discovered endpoint whose wrapper is found in the pool contributes that same
wrapper (so its `failed_attempts` and `backoff_end_time` are carried over
unchanged); and when discovery returns exactly the endpoints of the existing
replicas (with pool endpoints pair-wise distinct), the rebuilt pool equals
the previous pool, so no client's health state changes. -/
theorem refreshClientsRebuildPreserves (m : ConfigurationClientManager) (now : ℚ)
    (eps : List String) (c0 : ConfigurationClientWrapper)
    (rest : List ConfigurationClientWrapper)
    (hde : m.replica_discovery_enabled = true) (ht : m.next_update_time ≤ now)
    (hne : eps ≠ []) (hpool : m.replica_clients = c0 :: rest) :
    ((m.refresh_clients now (some eps)).1.replica_clients.head? = some c0)
  ∧ (∀ ep ∈ eps, ∀ c, findClient m.replica_clients ep = some c →
        c ∈ (m.refresh_clients now (some eps)).1.replica_clients)
  ∧ (eps = rest.map ConfigurationClientWrapper.endpoint →
      (m.replica_clients.map ConfigurationClientWrapper.endpoint).Nodup →
      (m.refresh_clients now (some eps)).1.replica_clients = m.replica_clients) := by
  have hr : (m.refresh_clients now (some eps)).1.replica_clients = m.rebuildClients eps :=
    refresh_clients_rebuild_eq m now eps hde ht hne
  have hrb : m.rebuildClients eps = c0 :: eps.map m.replicaFor := by
    rw [ConfigurationClientManager.rebuildClients, hpool]
  refine ⟨?_, ?_, ?_⟩
  · rw [hr, hrb]; rfl
  · intro ep hep c hc
    rw [hr, hrb]
    have hfor : m.replicaFor ep = c := by
      rw [ConfigurationClientManager.replicaFor, hc]
    refine List.mem_cons_of_mem _ ?_
    rw [← hfor]
    exact List.mem_map_of_mem _ hep
  · intro heps hnd
    rw [hr, hrb, heps]
    rw [replicaFor_map_eq m rest
      (fun c hcm => findClient_mem_nodup m.replica_clients hnd c
        (by rw [hpool]; exact List.mem_cons_of_mem _ hcm))]
    rw [hpool]

/-- Witness for `refreshClientsRebuildPreserves`: the concrete manager
`mgrAB`, rediscovering exactly the replica endpoint `b`, keeps `wrapperA` at
position 0 and leaves the pool identical (health state preserved). -/
theorem refreshClientsRebuildPreservesWitness :
    ((mgrAB.refresh_clients 100 (some ["b"])).1.replica_clients.head? = some wrapperA)
  ∧ (mgrAB.refresh_clients 100 (some ["b"])).1.replica_clients
      = mgrAB.replica_clients :=
  ⟨(refreshClientsRebuildPreserves mgrAB 100 ["b"] wrapperA [wrapperB] (by decide)
      (by decide) (by decide) (by rfl)).1,
   (refreshClientsRebuildPreserves mgrAB 100 ["b"] wrapperA [wrapperB] (by decide)
      (by decide) (by decide) (by rfl)).2.2 (by decide) (by decide)⟩

/-- C10: when the discovered endpoint list contains the original endpoint
itself, the rebuild appends the original wrapper a second time — once as the
always-kept position-0 client and once from the endpoint-match scan (which
finds it first, at position 0) — so the rebuilt pool holds at least two
copies of the original wrapper and the pool offers no at-most-one-wrapper-
per-endpoint guarantee. -/
theorem rebuildDuplicatesOriginal (m : ConfigurationClientManager) (now : ℚ)
    (eps : List String) (c0 : ConfigurationClientWrapper)
    (rest : List ConfigurationClientWrapper)
    (hde : m.replica_discovery_enabled = true) (ht : m.next_update_time ≤ now)
    (hpool : m.replica_clients = c0 :: rest) (hmem : c0.endpoint ∈ eps) :
    2 ≤ ((m.refresh_clients now (some eps)).1.replica_clients).count c0 := by
  have hne : eps ≠ [] := by
    intro h
    rw [h] at hmem
    cases hmem
  have hr := refresh_clients_rebuild_eq m now eps hde ht hne
  have hrb : m.rebuildClients eps = c0 :: eps.map m.replicaFor := by
    rw [ConfigurationClientManager.rebuildClients, hpool]
  rw [hr, hrb]
  have hself : m.replicaFor c0.endpoint = c0 := by
    rw [ConfigurationClientManager.replicaFor, findClient, hpool,
      List.find?_cons_of_pos _ (by simp)]
  have hmem2 : c0 ∈ eps.map m.replicaFor := by
    rw [← hself]
    exact List.mem_map_of_mem _ hmem
  rw [List.count_cons_self]
  have hpos := List.count_pos_iff.mpr hmem2
  omega

/-- Witness for `rebuildDuplicatesOriginal`: discovery advertising the
original endpoint `a` makes `mgrAB`'s rebuilt pool contain `wrapperA`
twice. -/
theorem rebuildDuplicatesOriginalWitness :
    2 ≤ ((mgrAB.refresh_clients 100 (some ["a"])).1.replica_clients).count wrapperA :=
  rebuildDuplicatesOriginal mgrAB 100 ["a"] wrapperA [wrapperB] (by decide) (by decide)
    (by rfl) (by decide)
